import Mathlib

/-!
Shallow embedding of the MCP23X17 GPIO-expander driver (`src/lib.rs`).

The driver is generic over a blocking I2C transport offering a `write`
and a `write_read` transaction.  We model a transport as an explicit
state machine `I2CModel σ E`: each transaction takes the transport state
and returns the new state together with `Except E`-style success or
failure (and, for `write_read`, the filled read buffer).  Machine bytes
are modelled as `Nat`; register and device addresses are well below any
overflow boundary, and where 8-bit wraparound matters (the `!` complement
inside `set_config`) it is written out as `Nat.xor _ 0xFF` on a byte.
-/

/-- IO Direction. 1 = input, Default 0xff -/
def REG_IODIR : Nat := 0x00

/-- Input polarity inversion. 1 = invert logic -/
def REG_IPOL : Nat := 0x01

/-- interrupt on change. 1 = enabled -/
def REG_GPINTEN : Nat := 0x02

/-- Comparison for interrupts -/
def REG_DEFVAL : Nat := 0x03

/-- Interrupt on change configuration. -/
def REG_INTCON : Nat := 0x04

/-- Chip configuration -/
def REG_CONFIG : Nat := 0x05

/-- Internal 100KOhm pull-up resistors. 1 = enabled -/
def REG_GPPU : Nat := 0x06

/-- Interrupt flag -/
def REG_INTF : Nat := 0x07

/-- Interrupt captured value -/
def REG_INTCAP : Nat := 0x08

/-- General Purpose IO value. 1 = high -/
def REG_GPIO : Nat := 0x09

/-- Output latch. 1 = high -/
def REG_OLAT : Nat := 0x0A

/-- Device address -/
def ADDRESS : Nat := 0x20

/-- Which port we're actively using (`Port` in the source). -/
inductive Port where
  | A
  | B
deriving DecidableEq

/-- Configuration register definition (the `bitflags! Config : u8` type):
a named-flag wrapper around a raw byte. -/
structure Config where
  bits : Nat
deriving DecidableEq

/-- If true, interleave port A/B register locations -/
def Config.BANK : Config := ⟨1 <<< 7⟩

/-- If true, connect interrupt pins -/
def Config.MIRROR : Config := ⟨1 <<< 6⟩

/-- If true, automatically increment address pointer -/
def Config.SEQOP : Config := ⟨1 <<< 5⟩

/-- If true, enable slew rate -/
def Config.DISSLW : Config := ⟨1 <<< 4⟩

/-- If true, use address pins (MCP23S17 only) -/
def Config.HAEN : Config := ⟨1 <<< 3⟩

/-- If true, output is open-drain -/
def Config.ODR : Config := ⟨1 <<< 2⟩

/-- If true, interrupt pins are active high -/
def Config.INTPOL : Config := ⟨1 <<< 1⟩

/-- The unimplemented bit 0 of the configuration register. -/
def Config._nothin : Config := ⟨1 <<< 0⟩

/-- Abstract blocking I2C transport (the `Write + WriteRead` trait bound):
`write st addr bytes` and `writeRead st addr writeBytes buffer` return the
new transport state, the outcome, and (for `writeRead`) the filled buffer. -/
structure I2CModel (σ E : Type) where
  write : σ → Nat → List Nat → σ × Except E Unit
  writeRead : σ → Nat → List Nat → List Nat → σ × List Nat × Except E Unit

/-- 16bit GPIO Expander -/
structure Mcp23x17 (σ : Type) where
  i2c : σ
  active_port : Port

/-- Create a new instance of the GPIO expander. -/
def Mcp23x17.new (σ E : Type) (i2c : σ) : Except E (Mcp23x17 σ) :=
  Except.ok { i2c := i2c, active_port := Port.A }

/-- Some quick math for the current register -/
def Mcp23x17.get_port {σ : Type} (self : Mcp23x17 σ) (register : Nat) : Nat :=
  match self.active_port with
  | Port.A => register
  | Port.B => Nat.lor 0x10 register

/-- Helper function when setting: one `write` of `[reg, data]` to `ADDRESS`. -/
def Mcp23x17.set_thing {σ E : Type} (M : I2CModel σ E) (self : Mcp23x17 σ)
    (register data : Nat) : Mcp23x17 σ × Except E Unit :=
  let reg := self.get_port register
  let r := M.write self.i2c ADDRESS [reg, data]
  ({ self with i2c := r.1 }, r.2)

/-- Helper function when reading: one `write_read` of `[reg]` into a
one-byte buffer that starts at `[0]`, returning its first byte. -/
def Mcp23x17.get_thing {σ E : Type} (M : I2CModel σ E) (self : Mcp23x17 σ)
    (register : Nat) : Mcp23x17 σ × Except E Nat :=
  let reg := self.get_port register
  let data : List Nat := [0]
  let r := M.writeRead self.i2c ADDRESS [reg] data
  match r.2.2 with
  | Except.ok _ => ({ self with i2c := r.1 }, Except.ok (r.2.1.getD 0 0))
  | Except.error e => ({ self with i2c := r.1 }, Except.error e)

/-- This function sets the active port internally. -/
def Mcp23x17.select_port {σ : Type} (self : Mcp23x17 σ) (port : Port) :
    Mcp23x17 σ :=
  { self with active_port := port }

/-- Set the I/O direction for the currently active port. -/
def Mcp23x17.set_direction {σ E : Type} (M : I2CModel σ E) (self : Mcp23x17 σ)
    (data : Nat) : Mcp23x17 σ × Except E Unit :=
  self.set_thing M REG_IODIR data

/-- Get the I/O direction for the active port -/
def Mcp23x17.direction {σ E : Type} (M : I2CModel σ E) (self : Mcp23x17 σ) :
    Mcp23x17 σ × Except E Nat :=
  self.get_thing M REG_IODIR

/-- Set configuration register; any attempt to set the `BANK` bit is
masked to zero (`data.bits & !Config::BANK.bits` on a `u8`). -/
def Mcp23x17.set_config {σ E : Type} (M : I2CModel σ E) (self : Mcp23x17 σ)
    (data : Config) : Mcp23x17 σ × Except E Unit :=
  let d := Nat.land data.bits (Nat.xor Config.BANK.bits 0xFF)
  self.set_thing M REG_CONFIG d

/-- Read the configuration register. -/
def Mcp23x17.config {σ E : Type} (M : I2CModel σ E) (self : Mcp23x17 σ) :
    Mcp23x17 σ × Except E Nat :=
  self.get_thing M REG_CONFIG

/-- Set the pullups. -/
def Mcp23x17.set_pullups {σ E : Type} (M : I2CModel σ E) (self : Mcp23x17 σ)
    (data : Nat) : Mcp23x17 σ × Except E Unit :=
  self.set_thing M REG_GPPU data

/-- Get the pullups. -/
def Mcp23x17.pullups {σ E : Type} (M : I2CModel σ E) (self : Mcp23x17 σ) :
    Mcp23x17 σ × Except E Nat :=
  self.get_thing M REG_GPPU

/-- Read interrupt state. -/
def Mcp23x17.who_interrupted {σ E : Type} (M : I2CModel σ E)
    (self : Mcp23x17 σ) : Mcp23x17 σ × Except E Nat :=
  self.get_thing M REG_INTF

/-- GPIO value at time of interrupt. -/
def Mcp23x17.data_at_interrupt {σ E : Type} (M : I2CModel σ E)
    (self : Mcp23x17 σ) : Mcp23x17 σ × Except E Nat :=
  self.get_thing M REG_INTCAP

/-- Set a comparison value for the interrupts. -/
def Mcp23x17.set_int_compare {σ E : Type} (M : I2CModel σ E)
    (self : Mcp23x17 σ) (data : Nat) : Mcp23x17 σ × Except E Unit :=
  self.set_thing M REG_DEFVAL data

/-- Read interrupt comparison value. -/
def Mcp23x17.int_compare {σ E : Type} (M : I2CModel σ E) (self : Mcp23x17 σ) :
    Mcp23x17 σ × Except E Nat :=
  self.get_thing M REG_DEFVAL

/-- Decide how interrupts will fire. -/
def Mcp23x17.set_int_control {σ E : Type} (M : I2CModel σ E)
    (self : Mcp23x17 σ) (data : Nat) : Mcp23x17 σ × Except E Unit :=
  self.set_thing M REG_INTCON data

/-- Read how interrupts will fire. -/
def Mcp23x17.int_control {σ E : Type} (M : I2CModel σ E) (self : Mcp23x17 σ) :
    Mcp23x17 σ × Except E Nat :=
  self.get_thing M REG_INTCON

/-- Enable interrupts. -/
def Mcp23x17.set_interrupt {σ E : Type} (M : I2CModel σ E) (self : Mcp23x17 σ)
    (data : Nat) : Mcp23x17 σ × Except E Unit :=
  self.set_thing M REG_GPINTEN data

/-- Read the interrupt-enable state. -/
def Mcp23x17.interrupt {σ E : Type} (M : I2CModel σ E) (self : Mcp23x17 σ) :
    Mcp23x17 σ × Except E Nat :=
  self.get_thing M REG_GPINTEN

/-- Read output latches. -/
def Mcp23x17.latches {σ E : Type} (M : I2CModel σ E) (self : Mcp23x17 σ) :
    Mcp23x17 σ × Except E Nat :=
  self.get_thing M REG_OLAT

/-- Set polarity. -/
def Mcp23x17.set_polarity {σ E : Type} (M : I2CModel σ E) (self : Mcp23x17 σ)
    (data : Nat) : Mcp23x17 σ × Except E Unit :=
  self.set_thing M REG_IPOL data

/-- Read the polarity. -/
def Mcp23x17.polarity {σ E : Type} (M : I2CModel σ E) (self : Mcp23x17 σ) :
    Mcp23x17 σ × Except E Nat :=
  self.get_thing M REG_IPOL

/-- Set the data for the active port -/
def Mcp23x17.set_data {σ E : Type} (M : I2CModel σ E) (self : Mcp23x17 σ)
    (data : Nat) : Mcp23x17 σ × Except E Unit :=
  self.set_thing M REG_GPIO data

/-- Read the data state from the active port -/
def Mcp23x17.data {σ E : Type} (M : I2CModel σ E) (self : Mcp23x17 σ) :
    Mcp23x17 σ × Except E Nat :=
  self.get_thing M REG_GPIO

/-! ### Mock transports used to observe the driver's bus traffic -/

/-- One observed bus transaction: either a plain write, or a
write-then-read recorded together with the bytes that were read back. -/
inductive Transaction where
  | write (addr : Nat) (bytes : List Nat)
  | writeRead (addr : Nat) (writeBytes : List Nat) (readBytes : List Nat)
deriving DecidableEq

/-- A mock transport whose state is the list of transactions performed so
far, paired with the fixed byte it answers to every read.  Every
transaction succeeds and is appended to the log. -/
def logModel (E : Type) : I2CModel (List Transaction × Nat) E where
  write := fun s addr bytes =>
    ((s.1 ++ [Transaction.write addr bytes], s.2), Except.ok ())
  writeRead := fun s addr wb buf =>
    ((s.1 ++ [Transaction.writeRead addr wb (buf.map fun _ => s.2)], s.2),
      buf.map (fun _ => s.2), Except.ok ())

/-- A mock transport that fails every transaction with the fixed error. -/
def failModel (E : Type) (e : E) : I2CModel Unit E where
  write := fun _ _ _ => ((), Except.error e)
  writeRead := fun _ _ _ buf => ((), buf, Except.error e)

/-! ### Claims -/

/-- C1: for every register offset `r` in `0x00..=0x0A`, `get_port` returns
`r` unchanged when the active port is A and `0x10 ||| r` when it is B, and
the Bank-B address exceeds the Bank-A address by exactly `0x10`. -/
theorem C1_get_port_addressing (σ : Type) (t : σ) (r : Nat) (h : r ≤ 0x0A) :
    (Mcp23x17.mk t Port.A).get_port r = r ∧
    (Mcp23x17.mk t Port.B).get_port r = Nat.lor 0x10 r ∧
    (Mcp23x17.mk t Port.B).get_port r = (Mcp23x17.mk t Port.A).get_port r + 0x10 := by
  refine ⟨rfl, rfl, ?_⟩
  show Nat.lor 0x10 r = r + 0x10
  interval_cases r <;> rfl

/-- Witness for C1 at the concrete offset `r = 0x09` (GPIO). -/
theorem C1_get_port_addressing_witness :
    (Mcp23x17.mk () Port.A).get_port 0x09 = 0x09 ∧
    (Mcp23x17.mk () Port.B).get_port 0x09 = Nat.lor 0x10 0x09 ∧
    (Mcp23x17.mk () Port.B).get_port 0x09 =
      (Mcp23x17.mk () Port.A).get_port 0x09 + 0x10 :=
  C1_get_port_addressing Unit () 0x09 (by decide)

/-- C8: the configuration flag type assigns BANK bit 7, MIRROR bit 6,
SEQOP bit 5, DISSLW bit 4, HAEN bit 3, ODR bit 2, INTPOL bit 1, and the
unused/reserved bit 0. -/
theorem C8_config_bit_positions :
    Config.BANK.bits = 2 ^ 7 ∧ Config.MIRROR.bits = 2 ^ 6 ∧
    Config.SEQOP.bits = 2 ^ 5 ∧ Config.DISSLW.bits = 2 ^ 4 ∧
    Config.HAEN.bits = 2 ^ 3 ∧ Config.ODR.bits = 2 ^ 2 ∧
    Config.INTPOL.bits = 2 ^ 1 ∧ Config._nothin.bits = 2 ^ 0 := by
  decide

/-- C2: whatever configuration value the caller supplies, the byte that
`set_config` actually writes to the transport has bit 7 (BANK) cleared
while every lower bit is passed through; in particular `0xFF` is written
as `0x7F`. -/
theorem C2_set_config_clears_bank (E : Type) (log : List Transaction)
    (b : Nat) (port : Port) (c : Config) :
    ((Mcp23x17.mk (log, b) port).set_config (logModel E) c).1.i2c.1
      = log ++ [Transaction.write ADDRESS
          [(Mcp23x17.mk (log, b) port).get_port REG_CONFIG,
            Nat.land c.bits 0x7F]] ∧
    (Nat.land c.bits 0x7F).testBit 7 = false ∧
    (∀ i, i < 7 → (Nat.land c.bits 0x7F).testBit i = c.bits.testBit i) ∧
    (c.bits = 0xFF → Nat.land c.bits 0x7F = 0x7F) := by
  have hmask : Nat.xor Config.BANK.bits 0xFF = 0x7F := by decide
  refine ⟨?_, ?_, ?_, ?_⟩
  · simp [Mcp23x17.set_config, Mcp23x17.set_thing, logModel, hmask]
  · show Nat.testBit (c.bits &&& 0x7F) 7 = false
    rw [Nat.testBit_land]
    have h7 : Nat.testBit 0x7F 7 = false := by decide
    rw [h7, Bool.and_false]
  · intro i hi
    show Nat.testBit (c.bits &&& 0x7F) i = c.bits.testBit i
    rw [Nat.testBit_land]
    have hb : Nat.testBit 0x7F i = true := by interval_cases i <;> decide
    rw [hb, Bool.and_true]
  · intro hc
    rw [hc]
    decide

/-- The outcome of `set_thing` is the transport write's outcome verbatim. -/
theorem set_thing_outcome {σ E : Type} (M : I2CModel σ E) (self : Mcp23x17 σ)
    (register data : Nat) :
    (self.set_thing M register data).2
      = (M.write self.i2c ADDRESS [self.get_port register, data]).2 := rfl

/-- `set_thing` never changes the active port. -/
theorem set_thing_active_port {σ E : Type} (M : I2CModel σ E)
    (self : Mcp23x17 σ) (register data : Nat) :
    (self.set_thing M register data).1.active_port = self.active_port := rfl

/-- `get_thing` never changes the active port. -/
theorem get_thing_active_port {σ E : Type} (M : I2CModel σ E)
    (self : Mcp23x17 σ) (register : Nat) :
    (self.get_thing M register).1.active_port = self.active_port := by
  simp only [Mcp23x17.get_thing]
  split <;> rfl

/-- `get_thing` fails with `e` exactly when the transport's
write-then-read does. -/
theorem get_thing_error_iff {σ E : Type} (M : I2CModel σ E)
    (self : Mcp23x17 σ) (register : Nat) (e : E) :
    (self.get_thing M register).2 = Except.error e ↔
      (M.writeRead self.i2c ADDRESS [self.get_port register] [0]).2.2
        = Except.error e := by
  simp only [Mcp23x17.get_thing]
  split
  next a h => simp [h]
  next a h => simp [h]

/-- C4: over an arbitrary transport, every public setter's outcome is the
transport write's outcome unmodified (so it errs exactly when the
transport errs, with the very same error), every public getter errs with
`e` exactly when the transport's write-then-read errs with `e`, and in
all cases the driver's selected port is unchanged.  -/
theorem C4_error_passthrough (σ E : Type) (M : I2CModel σ E)
    (self : Mcp23x17 σ) (v : Nat) (c : Config) (e : E) :
    ((self.set_direction M v).2
        = (M.write self.i2c ADDRESS [self.get_port REG_IODIR, v]).2
      ∧ (self.set_direction M v).1.active_port = self.active_port) ∧
    ((self.set_config M c).2
        = (M.write self.i2c ADDRESS [self.get_port REG_CONFIG,
            Nat.land c.bits (Nat.xor Config.BANK.bits 0xFF)]).2
      ∧ (self.set_config M c).1.active_port = self.active_port) ∧
    ((self.set_pullups M v).2
        = (M.write self.i2c ADDRESS [self.get_port REG_GPPU, v]).2
      ∧ (self.set_pullups M v).1.active_port = self.active_port) ∧
    ((self.set_int_compare M v).2
        = (M.write self.i2c ADDRESS [self.get_port REG_DEFVAL, v]).2
      ∧ (self.set_int_compare M v).1.active_port = self.active_port) ∧
    ((self.set_int_control M v).2
        = (M.write self.i2c ADDRESS [self.get_port REG_INTCON, v]).2
      ∧ (self.set_int_control M v).1.active_port = self.active_port) ∧
    ((self.set_interrupt M v).2
        = (M.write self.i2c ADDRESS [self.get_port REG_GPINTEN, v]).2
      ∧ (self.set_interrupt M v).1.active_port = self.active_port) ∧
    ((self.set_polarity M v).2
        = (M.write self.i2c ADDRESS [self.get_port REG_IPOL, v]).2
      ∧ (self.set_polarity M v).1.active_port = self.active_port) ∧
    ((self.set_data M v).2
        = (M.write self.i2c ADDRESS [self.get_port REG_GPIO, v]).2
      ∧ (self.set_data M v).1.active_port = self.active_port) ∧
    (((self.direction M).2 = Except.error e ↔
        (M.writeRead self.i2c ADDRESS [self.get_port REG_IODIR] [0]).2.2
          = Except.error e)
      ∧ (self.direction M).1.active_port = self.active_port) ∧
    (((self.config M).2 = Except.error e ↔
        (M.writeRead self.i2c ADDRESS [self.get_port REG_CONFIG] [0]).2.2
          = Except.error e)
      ∧ (self.config M).1.active_port = self.active_port) ∧
    (((self.pullups M).2 = Except.error e ↔
        (M.writeRead self.i2c ADDRESS [self.get_port REG_GPPU] [0]).2.2
          = Except.error e)
      ∧ (self.pullups M).1.active_port = self.active_port) ∧
    (((self.who_interrupted M).2 = Except.error e ↔
        (M.writeRead self.i2c ADDRESS [self.get_port REG_INTF] [0]).2.2
          = Except.error e)
      ∧ (self.who_interrupted M).1.active_port = self.active_port) ∧
    (((self.data_at_interrupt M).2 = Except.error e ↔
        (M.writeRead self.i2c ADDRESS [self.get_port REG_INTCAP] [0]).2.2
          = Except.error e)
      ∧ (self.data_at_interrupt M).1.active_port = self.active_port) ∧
    (((self.int_compare M).2 = Except.error e ↔
        (M.writeRead self.i2c ADDRESS [self.get_port REG_DEFVAL] [0]).2.2
          = Except.error e)
      ∧ (self.int_compare M).1.active_port = self.active_port) ∧
    (((self.int_control M).2 = Except.error e ↔
        (M.writeRead self.i2c ADDRESS [self.get_port REG_INTCON] [0]).2.2
          = Except.error e)
      ∧ (self.int_control M).1.active_port = self.active_port) ∧
    (((self.interrupt M).2 = Except.error e ↔
        (M.writeRead self.i2c ADDRESS [self.get_port REG_GPINTEN] [0]).2.2
          = Except.error e)
      ∧ (self.interrupt M).1.active_port = self.active_port) ∧
    (((self.latches M).2 = Except.error e ↔
        (M.writeRead self.i2c ADDRESS [self.get_port REG_OLAT] [0]).2.2
          = Except.error e)
      ∧ (self.latches M).1.active_port = self.active_port) ∧
    (((self.polarity M).2 = Except.error e ↔
        (M.writeRead self.i2c ADDRESS [self.get_port REG_IPOL] [0]).2.2
          = Except.error e)
      ∧ (self.polarity M).1.active_port = self.active_port) ∧
    (((self.data M).2 = Except.error e ↔
        (M.writeRead self.i2c ADDRESS [self.get_port REG_GPIO] [0]).2.2
          = Except.error e)
      ∧ (self.data M).1.active_port = self.active_port) :=
  ⟨⟨rfl, rfl⟩, ⟨rfl, rfl⟩, ⟨rfl, rfl⟩, ⟨rfl, rfl⟩, ⟨rfl, rfl⟩, ⟨rfl, rfl⟩,
    ⟨rfl, rfl⟩, ⟨rfl, rfl⟩,
    ⟨get_thing_error_iff M self REG_IODIR e, get_thing_active_port M self REG_IODIR⟩,
    ⟨get_thing_error_iff M self REG_CONFIG e, get_thing_active_port M self REG_CONFIG⟩,
    ⟨get_thing_error_iff M self REG_GPPU e, get_thing_active_port M self REG_GPPU⟩,
    ⟨get_thing_error_iff M self REG_INTF e, get_thing_active_port M self REG_INTF⟩,
    ⟨get_thing_error_iff M self REG_INTCAP e, get_thing_active_port M self REG_INTCAP⟩,
    ⟨get_thing_error_iff M self REG_DEFVAL e, get_thing_active_port M self REG_DEFVAL⟩,
    ⟨get_thing_error_iff M self REG_INTCON e, get_thing_active_port M self REG_INTCON⟩,
    ⟨get_thing_error_iff M self REG_GPINTEN e, get_thing_active_port M self REG_GPINTEN⟩,
    ⟨get_thing_error_iff M self REG_OLAT e, get_thing_active_port M self REG_OLAT⟩,
    ⟨get_thing_error_iff M self REG_IPOL e, get_thing_active_port M self REG_IPOL⟩,
    ⟨get_thing_error_iff M self REG_GPIO e, get_thing_active_port M self REG_GPIO⟩⟩

/-- C9: no public get/set operation ever changes the driver's selected
port, over an arbitrary transport (so on failure as well as on success);
`select_port` is the one operation that sets it. -/
theorem C9_active_port_frame (σ E : Type) (M : I2CModel σ E)
    (self : Mcp23x17 σ) (v : Nat) (c : Config) (p : Port) :
    (self.set_direction M v).1.active_port = self.active_port ∧
    (self.set_config M c).1.active_port = self.active_port ∧
    (self.set_pullups M v).1.active_port = self.active_port ∧
    (self.set_int_compare M v).1.active_port = self.active_port ∧
    (self.set_int_control M v).1.active_port = self.active_port ∧
    (self.set_interrupt M v).1.active_port = self.active_port ∧
    (self.set_polarity M v).1.active_port = self.active_port ∧
    (self.set_data M v).1.active_port = self.active_port ∧
    (self.direction M).1.active_port = self.active_port ∧
    (self.config M).1.active_port = self.active_port ∧
    (self.pullups M).1.active_port = self.active_port ∧
    (self.who_interrupted M).1.active_port = self.active_port ∧
    (self.data_at_interrupt M).1.active_port = self.active_port ∧
    (self.int_compare M).1.active_port = self.active_port ∧
    (self.int_control M).1.active_port = self.active_port ∧
    (self.interrupt M).1.active_port = self.active_port ∧
    (self.latches M).1.active_port = self.active_port ∧
    (self.polarity M).1.active_port = self.active_port ∧
    (self.data M).1.active_port = self.active_port ∧
    (self.select_port p).active_port = p :=
  ⟨rfl, rfl, rfl, rfl, rfl, rfl, rfl, rfl,
    get_thing_active_port M self REG_IODIR,
    get_thing_active_port M self REG_CONFIG,
    get_thing_active_port M self REG_GPPU,
    get_thing_active_port M self REG_INTF,
    get_thing_active_port M self REG_INTCAP,
    get_thing_active_port M self REG_DEFVAL,
    get_thing_active_port M self REG_INTCON,
    get_thing_active_port M self REG_GPINTEN,
    get_thing_active_port M self REG_OLAT,
    get_thing_active_port M self REG_IPOL,
    get_thing_active_port M self REG_GPIO, rfl⟩

/-- Folding any sequence of `select_port` calls only rewrites the
active-port field; the transport state is untouched. -/
theorem foldl_select_port (σ : Type) (ps : List Port) (self : Mcp23x17 σ) :
    ps.foldl Mcp23x17.select_port self
      = Mcp23x17.mk self.i2c (ps.foldl (fun _ p => p) self.active_port) := by
  induction ps generalizing self with
  | nil => rfl
  | cons p ps ih => simp [List.foldl, ih, Mcp23x17.select_port]

/-- C5: `select_port` is a pure in-memory update — it rewrites only the
active-port field and performs no transaction, any number of consecutive
calls leaves the transport state (hence any transaction log) untouched,
and the next access computes its register address with the newly
selected port. -/
theorem C5_select_port_pure (σ E : Type) (self : Mcp23x17 σ) (port q : Port)
    (ps : List Port) (r v : Nat) (log : List Transaction) (b : Nat) :
    self.select_port port = Mcp23x17.mk self.i2c port ∧
    (ps.foldl Mcp23x17.select_port self).i2c = self.i2c ∧
    (ps.foldl Mcp23x17.select_port self).active_port
      = ps.foldl (fun _ p => p) self.active_port ∧
    (((Mcp23x17.mk (log, b) q).select_port Port.B).set_thing (logModel E) r v).1.i2c.1
      = log ++ [Transaction.write ADDRESS [Nat.lor 0x10 r, v]] ∧
    (((Mcp23x17.mk (log, b) q).select_port Port.A).set_thing (logModel E) r v).1.i2c.1
      = log ++ [Transaction.write ADDRESS [r, v]] := by
  refine ⟨rfl, ?_, ?_, rfl, rfl⟩
  · rw [foldl_select_port]
  · rw [foldl_select_port]

/-- C6: construction stores the transport verbatim, selects port A, is
I/O-free (the stored transport state is exactly the argument, untouched)
and always succeeds — it never returns an error of its own. -/
theorem C6_new_no_io (σ E : Type) (i2c : σ) :
    Mcp23x17.new σ E i2c = Except.ok (Mcp23x17.mk i2c Port.A) ∧
    (∀ e : E, Mcp23x17.new σ E i2c ≠ Except.error e) :=
  ⟨rfl, fun _ h => Except.noConfusion h⟩

/-- C3: against the recording transport, each public setter appends
exactly one write transaction of exactly the two bytes
`[physical_address, value]` and succeeds, and each public getter appends
exactly one write-then-read transaction that writes the single byte
`[physical_address]`, reads exactly one byte, and returns that byte. -/
theorem C3_one_transaction_per_call (E : Type) (log : List Transaction)
    (b : Nat) (port : Port) (v : Nat) (c : Config) :
    ((Mcp23x17.mk (log, b) port).set_direction (logModel E) v
      = (Mcp23x17.mk (log ++ [Transaction.write ADDRESS
          [(Mcp23x17.mk (log, b) port).get_port REG_IODIR, v]], b) port,
        Except.ok ())) ∧
    ((Mcp23x17.mk (log, b) port).set_config (logModel E) c
      = (Mcp23x17.mk (log ++ [Transaction.write ADDRESS
          [(Mcp23x17.mk (log, b) port).get_port REG_CONFIG,
            Nat.land c.bits (Nat.xor Config.BANK.bits 0xFF)]], b) port,
        Except.ok ())) ∧
    ((Mcp23x17.mk (log, b) port).set_pullups (logModel E) v
      = (Mcp23x17.mk (log ++ [Transaction.write ADDRESS
          [(Mcp23x17.mk (log, b) port).get_port REG_GPPU, v]], b) port,
        Except.ok ())) ∧
    ((Mcp23x17.mk (log, b) port).set_int_compare (logModel E) v
      = (Mcp23x17.mk (log ++ [Transaction.write ADDRESS
          [(Mcp23x17.mk (log, b) port).get_port REG_DEFVAL, v]], b) port,
        Except.ok ())) ∧
    ((Mcp23x17.mk (log, b) port).set_int_control (logModel E) v
      = (Mcp23x17.mk (log ++ [Transaction.write ADDRESS
          [(Mcp23x17.mk (log, b) port).get_port REG_INTCON, v]], b) port,
        Except.ok ())) ∧
    ((Mcp23x17.mk (log, b) port).set_interrupt (logModel E) v
      = (Mcp23x17.mk (log ++ [Transaction.write ADDRESS
          [(Mcp23x17.mk (log, b) port).get_port REG_GPINTEN, v]], b) port,
        Except.ok ())) ∧
    ((Mcp23x17.mk (log, b) port).set_polarity (logModel E) v
      = (Mcp23x17.mk (log ++ [Transaction.write ADDRESS
          [(Mcp23x17.mk (log, b) port).get_port REG_IPOL, v]], b) port,
        Except.ok ())) ∧
    ((Mcp23x17.mk (log, b) port).set_data (logModel E) v
      = (Mcp23x17.mk (log ++ [Transaction.write ADDRESS
          [(Mcp23x17.mk (log, b) port).get_port REG_GPIO, v]], b) port,
        Except.ok ())) ∧
    ((Mcp23x17.mk (log, b) port).direction (logModel E)
      = (Mcp23x17.mk (log ++ [Transaction.writeRead ADDRESS
          [(Mcp23x17.mk (log, b) port).get_port REG_IODIR] [b]], b) port,
        Except.ok b)) ∧
    ((Mcp23x17.mk (log, b) port).config (logModel E)
      = (Mcp23x17.mk (log ++ [Transaction.writeRead ADDRESS
          [(Mcp23x17.mk (log, b) port).get_port REG_CONFIG] [b]], b) port,
        Except.ok b)) ∧
    ((Mcp23x17.mk (log, b) port).pullups (logModel E)
      = (Mcp23x17.mk (log ++ [Transaction.writeRead ADDRESS
          [(Mcp23x17.mk (log, b) port).get_port REG_GPPU] [b]], b) port,
        Except.ok b)) ∧
    ((Mcp23x17.mk (log, b) port).who_interrupted (logModel E)
      = (Mcp23x17.mk (log ++ [Transaction.writeRead ADDRESS
          [(Mcp23x17.mk (log, b) port).get_port REG_INTF] [b]], b) port,
        Except.ok b)) ∧
    ((Mcp23x17.mk (log, b) port).data_at_interrupt (logModel E)
      = (Mcp23x17.mk (log ++ [Transaction.writeRead ADDRESS
          [(Mcp23x17.mk (log, b) port).get_port REG_INTCAP] [b]], b) port,
        Except.ok b)) ∧
    ((Mcp23x17.mk (log, b) port).int_compare (logModel E)
      = (Mcp23x17.mk (log ++ [Transaction.writeRead ADDRESS
          [(Mcp23x17.mk (log, b) port).get_port REG_DEFVAL] [b]], b) port,
        Except.ok b)) ∧
    ((Mcp23x17.mk (log, b) port).int_control (logModel E)
      = (Mcp23x17.mk (log ++ [Transaction.writeRead ADDRESS
          [(Mcp23x17.mk (log, b) port).get_port REG_INTCON] [b]], b) port,
        Except.ok b)) ∧
    ((Mcp23x17.mk (log, b) port).interrupt (logModel E)
      = (Mcp23x17.mk (log ++ [Transaction.writeRead ADDRESS
          [(Mcp23x17.mk (log, b) port).get_port REG_GPINTEN] [b]], b) port,
        Except.ok b)) ∧
    ((Mcp23x17.mk (log, b) port).latches (logModel E)
      = (Mcp23x17.mk (log ++ [Transaction.writeRead ADDRESS
          [(Mcp23x17.mk (log, b) port).get_port REG_OLAT] [b]], b) port,
        Except.ok b)) ∧
    ((Mcp23x17.mk (log, b) port).polarity (logModel E)
      = (Mcp23x17.mk (log ++ [Transaction.writeRead ADDRESS
          [(Mcp23x17.mk (log, b) port).get_port REG_IPOL] [b]], b) port,
        Except.ok b)) ∧
    ((Mcp23x17.mk (log, b) port).data (logModel E)
      = (Mcp23x17.mk (log ++ [Transaction.writeRead ADDRESS
          [(Mcp23x17.mk (log, b) port).get_port REG_GPIO] [b]], b) port,
        Except.ok b)) :=
  ⟨rfl, rfl, rfl, rfl, rfl, rfl, rfl, rfl, rfl, rfl, rfl, rfl, rfl, rfl,
    rfl, rfl, rfl, rfl, rfl⟩

/-- C7: the device address is `0x20` and the register constants carry
the chip-defined Bank-A offsets; every named public operation delegates
to the generic accessor at exactly its constant; with the recording
transport every transaction the accessors issue targets `ADDRESS`; and
the Bank-B physical address is the offset or-ed with `0x10`. -/
theorem C7_protocol_constants (σ E : Type) (M : I2CModel σ E)
    (self : Mcp23x17 σ) (t : σ) (v r : Nat) (c : Config)
    (log : List Transaction) (b : Nat) (port : Port) :
    ADDRESS = 0x20 ∧
    REG_IODIR = 0x00 ∧ REG_IPOL = 0x01 ∧ REG_GPINTEN = 0x02 ∧
    REG_DEFVAL = 0x03 ∧ REG_INTCON = 0x04 ∧ REG_CONFIG = 0x05 ∧
    REG_GPPU = 0x06 ∧ REG_INTF = 0x07 ∧ REG_INTCAP = 0x08 ∧
    REG_GPIO = 0x09 ∧ REG_OLAT = 0x0A ∧
    (Mcp23x17.mk t Port.A).get_port r = r ∧
    (Mcp23x17.mk t Port.B).get_port r = Nat.lor 0x10 r ∧
    Nat.lor 0x10 r = Nat.lor r 0x10 ∧
    self.set_direction M v = self.set_thing M REG_IODIR v ∧
    self.direction M = self.get_thing M REG_IODIR ∧
    self.set_config M c = self.set_thing M REG_CONFIG
      (Nat.land c.bits (Nat.xor Config.BANK.bits 0xFF)) ∧
    self.config M = self.get_thing M REG_CONFIG ∧
    self.set_pullups M v = self.set_thing M REG_GPPU v ∧
    self.pullups M = self.get_thing M REG_GPPU ∧
    self.who_interrupted M = self.get_thing M REG_INTF ∧
    self.data_at_interrupt M = self.get_thing M REG_INTCAP ∧
    self.set_int_compare M v = self.set_thing M REG_DEFVAL v ∧
    self.int_compare M = self.get_thing M REG_DEFVAL ∧
    self.set_int_control M v = self.set_thing M REG_INTCON v ∧
    self.int_control M = self.get_thing M REG_INTCON ∧
    self.set_interrupt M v = self.set_thing M REG_GPINTEN v ∧
    self.interrupt M = self.get_thing M REG_GPINTEN ∧
    self.latches M = self.get_thing M REG_OLAT ∧
    self.set_polarity M v = self.set_thing M REG_IPOL v ∧
    self.polarity M = self.get_thing M REG_IPOL ∧
    self.set_data M v = self.set_thing M REG_GPIO v ∧
    self.data M = self.get_thing M REG_GPIO ∧
    ((Mcp23x17.mk (log, b) port).set_thing (logModel E) r v).1.i2c.1
      = log ++ [Transaction.write ADDRESS
          [(Mcp23x17.mk (log, b) port).get_port r, v]] ∧
    ((Mcp23x17.mk (log, b) port).get_thing (logModel E) r).1.i2c.1
      = log ++ [Transaction.writeRead ADDRESS
          [(Mcp23x17.mk (log, b) port).get_port r] [b]] :=
  ⟨rfl, rfl, rfl, rfl, rfl, rfl, rfl, rfl, rfl, rfl, rfl, rfl, rfl, rfl,
    Nat.lor_comm 0x10 r, rfl, rfl, rfl, rfl, rfl, rfl, rfl, rfl, rfl, rfl,
    rfl, rfl, rfl, rfl, rfl, rfl, rfl, rfl, rfl, rfl, rfl⟩

/-- C10: the configuration getter hands back the byte the transport read
with no masking at all — when the transport answers a byte with bit 7
(BANK) set, `config` returns it as-is, a value that `set_config` itself
can never emit (it writes `0x7F` when asked to write `0xFF`). -/
theorem C10_config_read_unmasked (E : Type) (log : List Transaction)
    (b : Nat) (port : Port) :
    ((Mcp23x17.mk (log, b) port).config (logModel E)).2 = Except.ok b ∧
    ((Mcp23x17.mk (log, 0xFF) port).config (logModel E)).2 = Except.ok 0xFF ∧
    Nat.testBit 0xFF 7 = true ∧
    ((Mcp23x17.mk (log, 0xFF) port).set_config (logModel E) ⟨0xFF⟩).1.i2c.1
      = log ++ [Transaction.write ADDRESS
          [(Mcp23x17.mk (log, 0xFF) port).get_port REG_CONFIG, 0x7F]] ∧
    Nat.testBit 0x7F 7 = false := by
  refine ⟨rfl, rfl, by decide, ?_, by decide⟩
  have h : Nat.land 0xFF (Nat.xor Config.BANK.bits 0xFF) = 0x7F := by decide
  simp [Mcp23x17.set_config, Mcp23x17.set_thing, logModel, h]
